import Mathlib

/-!
Shallow embedding of the core of database-dumper-cli (a TypeScript CLI that
downloads a pinned mysqldump binary, verifies it, and drives it to produce
database dumps), together with theorems checking the natural-language
specification against the code.

Effectful TypeScript functions are embedded as pure Lean functions over an
explicit environment describing the outcomes of the external operations they
perform (file-system probes, downloads, hashes, spawned processes); each
returns its result (`Except` for fallible code) together with the pieces of
final state the properties speak about.

JavaScript strings are modelled as Lean `String`s; the JS string operations
used by the code (`startsWith`, `slice`, `replace`, `trim`, template
literals) are modelled character-wise, which is faithful here because every
prefix or pattern involved is ASCII.
-/

namespace DbDumper

/-! ## String and path helpers

`joinPath` models Node's `path.join` on normal POSIX segments (non-empty,
no `.`/`..`, no internal separators): in that case `path.join` is exactly
interleaving with `/`.  `pathResolve` models Node's `path.resolve(cwd, p)`
for a normal `p`: an absolute path is returned as-is, a relative one is
appended to the (absolute, normalized) working directory. -/

def joinPath (parts : List String) : String :=
  String.intercalate "/" parts

/-- Character-wise model of JS `String.prototype.startsWith`. -/
def strStartsWith (s pre : String) : Bool :=
  pre.data.isPrefixOf s.data

def pathResolve (cwd p : String) : String :=
  if strStartsWith p "/" then p else joinPath [cwd, p]

/-- Character-wise model of JS `String.prototype.slice(n)` (drop the first
`n` characters). -/
def strDrop (s : String) (n : Nat) : String :=
  String.mk (s.data.drop n)

/-- Character-wise model of JS `String.prototype.trim` (strip leading and
trailing whitespace). -/
def strTrim (s : String) : String :=
  String.mk (((s.data.dropWhile Char.isWhitespace).reverse.dropWhile
    Char.isWhitespace).reverse)

/-! ## Data model (`src/types.ts`) -/

inductive Platform where
  | linux
  | darwin
  | win32
deriving DecidableEq, Repr

inductive Arch where
  | x64
  | arm64
deriving DecidableEq, Repr

def Platform.str : Platform → String
  | .linux => "linux"
  | .darwin => "darwin"
  | .win32 => "win32"

def Arch.str : Arch → String
  | .x64 => "x64"
  | .arm64 => "arm64"

structure DatabaseConfig where
  id : String
  dbType : String
  environment : String
  name : String
  «alias» : Option String
  host : String
  port : Option Nat
  username : String
  passwordRef : String
  selectedFlags : List String
  customFlags : Option (List String)
  gzipDefault : Option Bool
  createdAt : String
  updatedAt : String
deriving DecidableEq, Repr

structure ConfigDefaults where
  lastSelectedId : Option String
  dumpRootOverride : Option String
deriving DecidableEq, Repr

structure ConfigFile where
  version : Nat
  databases : List DatabaseConfig
  defaults : Option ConfigDefaults
deriving DecidableEq, Repr

structure BinaryDescriptor where
  version : String
  platform : Platform
  arch : Arch
  url : String
  sha256 : String
  archiveType : String
  innerPathHints : List String
deriving DecidableEq, Repr

structure DumpRequest where
  db : DatabaseConfig
  password : String
  outputPath : String
  gzip : Bool
  excludeTables : List String
  flags : List String
  binaryPath : String
deriving DecidableEq, Repr

structure DumpResult where
  outputPath : String
  sizeBytes : Nat
  durationMs : Nat
  gzip : Bool
deriving DecidableEq, Repr

structure ConnectionTestResult where
  ok : Bool
  message : Option String
  errText : Option String
deriving DecidableEq, Repr

/-! ## Configuration store (`src/configStore.ts`)

`loadConfig` reads the file at the config path, parses it as JSON and
returns it after the version fix-up; the on-disk state is embedded as
`Option RawConfig`: `none` when no file exists, `some raw` for a file that
parses as the given raw configuration.  `RawConfig.version` is an
`Option Nat` because the parsed JSON object may lack the `version` field;
the JS truthiness test `!parsed.version` holds exactly for a missing field
or the value `0`. -/

def SCHEMA_VERSION : Nat := 1

def DEFAULT_CONFIG : ConfigFile :=
  { version := SCHEMA_VERSION, databases := [], defaults := none }

structure RawConfig where
  version : Option Nat
  databases : List DatabaseConfig
  defaults : Option ConfigDefaults
deriving DecidableEq, Repr

def loadConfig (disk : Option RawConfig) : ConfigFile :=
  match disk with
  | none => DEFAULT_CONFIG
  | some parsed =>
    let v : Nat :=
      match parsed.version with
      | none => 1
      | some v => if v = 0 then 1 else v
    { version := v, databases := parsed.databases, defaults := parsed.defaults }

def upsertDatabase (config : ConfigFile) (entry : DatabaseConfig) : ConfigFile :=
  match config.databases.findIdx? (fun d => d.id = entry.id) with
  | some idx => { config with databases := config.databases.set idx entry }
  | none => { config with databases := config.databases ++ [entry] }

def deleteDatabase (config : ConfigFile) (id : String) : ConfigFile :=
  { config with databases := config.databases.filter (fun d => d.id ≠ id) }

def findDatabase (config : ConfigFile) (idOrAlias : String) : Option DatabaseConfig :=
  config.databases.find? (fun d => d.id = idOrAlias ∨ d.«alias» = some idOrAlias)

/-! ## Output path planner (`src/outputPaths.ts`, `src/paths.ts`)

`timestampString` models `new Date().toISOString().replace(/[:.]/g, '-')`
applied to the ISO string `nowISO`; `defaultDumpPath` takes the ambient
temp directory and current ISO time as explicit inputs. -/

def APP_NAME : String := "database-cli-dumper"

def timestampString (nowISO : String) : String :=
  String.map (fun c => if c = ':' ∨ c = '.' then '-' else c) nowISO

def getTempDumpRoot (tmpdir : String) : String :=
  joinPath [tmpdir, APP_NAME]

def resolveDumpPath (base : String) (parts : List String) : String :=
  joinPath (base :: parts)

def defaultDumpPath (env aliasOrName : String) (gzip : Bool)
    (rootOverride : Option String) (tmpdir nowISO : String) : String :=
  let safeEnv := if env = "" then "default" else env
  let safeName := if aliasOrName = "" then "database" else aliasOrName
  let root :=
    match rootOverride with
    | some r => if r = "" then getTempDumpRoot tmpdir else r
    | none => getTempDumpRoot tmpdir
  let dir := resolveDumpPath root [safeEnv, safeName]
  let filename :=
    safeName ++ "-" ++ timestampString nowISO ++ ".sql" ++ (if gzip then ".gz" else "")
  joinPath [dir, filename]

/-- Modelled from the spec (§4.8), for comparison with `defaultDumpPath`:
the claimed shape `<root>/<environment>/<alias-or-name>/<name>-<timestamp>.sql[.gz]`
in which the directory segment and the filename stem are two distinct
inputs, the alias-or-name and the name. -/
def specDumpPath (root env aliasOrName name ts : String) (gzip : Bool) : String :=
  joinPath [root, env, aliasOrName,
    name ++ "-" ++ ts ++ ".sql" ++ (if gzip then ".gz" else "")]

/-! ## Secret store (`src/secrets.ts`)

The keytar backend is embedded as `Option` data: `savePassword` takes a
flag saying whether `require('keytar')` succeeded (plus the fresh UUID it
would otherwise generate), `resolvePassword` takes the keytar lookup as an
optional function (`none` when keytar is unavailable). -/

inductive SecretStorage where
  | keytar
  | plaintext
deriving DecidableEq, Repr

structure SaveSecretResult where
  ref : String
  storage : SecretStorage
  warning : Option String
deriving DecidableEq, Repr

def savePassword (keytarAvailable : Bool) (freshUUID : String)
    (password : String) (existingRef : Option String) : SaveSecretResult :=
  let account :=
    match existingRef with
    | some r =>
      if strStartsWith r "keytar:" then ((r.splitOn ":").getD 1 "") else freshUUID
    | none => freshUUID
  if keytarAvailable then
    { ref := "keytar:" ++ account, storage := .keytar, warning := none }
  else
    { ref := "plaintext:" ++ password, storage := .plaintext,
      warning := some "keytar unavailable; storing password in plaintext in config" }

def resolvePassword (keytarLookup : Option (String → Option String))
    (ref : String) : Option String :=
  if ref = "" then none
  else if strStartsWith ref "plaintext:" then some (strDrop ref "plaintext:".length)
  else if strStartsWith ref "keytar:" then
    match keytarLookup with
    | none => none
    | some lookup =>
      match lookup (strDrop ref "keytar:".length) with
      | some p => if p = "" then none else some p
      | none => none
  else none

/-! ## Network fetcher (`src/downloader.ts`)

The HTTP layer is embedded as a function `server : U → Response U` giving,
for each URL, the response the server sends (status code possibly absent,
`Location` header possibly absent).  `requestLoop` is the recursive
`request(currentUrl, redirects)` closure of `downloadToFile`; on success it
returns the URL whose body was streamed into the destination file.  The
JS truthiness tests `res.statusCode && ...` and `!res.statusCode || ...`
hold for a missing status and for status `0`. -/

structure Response (U : Type) where
  statusCode : Option Nat
  location : Option U

def MAX_REDIRECTS : Nat := 5

def requestLoop {U : Type} (server : U → Response U) (url : U) (redirects : Nat) :
    Except String U :=
  let res := server url
  match res.statusCode, res.location with
  | some sc, some loc =>
    if 300 ≤ sc ∧ sc < 400 then
      if MAX_REDIRECTS ≤ redirects then Except.error "Too many redirects"
      else requestLoop server loc (redirects + 1)
    else if sc = 0 ∨ 400 ≤ sc then
      Except.error ("Download failed with status " ++ toString sc)
    else Except.ok url
  | some sc, none =>
    if sc = 0 ∨ 400 ≤ sc then
      Except.error ("Download failed with status " ++ toString sc)
    else Except.ok url
  | none, _ => Except.error "Download failed with status undefined"
termination_by MAX_REDIRECTS + 1 - redirects
decreasing_by simp [MAX_REDIRECTS] at *; omega

def downloadToFile {U : Type} (server : U → Response U) (url : U) : Except String U :=
  requestLoop server url 0

/-! ## Binary catalog (`src/versionMap.ts`) -/

def PINNED_MYSQL_VERSION : String := "8.0.36"

def BINARY_MAP : List BinaryDescriptor :=
  [ { version := PINNED_MYSQL_VERSION,
      platform := .linux, arch := .x64,
      url := "https://cdn.mysql.com/archives/mysql-8.0/mysql-8.0.36-linux-glibc2.28-x86_64.tar.xz",
      sha256 := "ffd80e375834dd07e25cc3c7f03ae1950668ec606655c9cb2eafdfb7e37d6026",
      archiveType := "tar.xz",
      innerPathHints := ["mysql-8.0.36-linux-glibc2.28-x86_64/bin/mysqldump", "bin/mysqldump"] },
    { version := PINNED_MYSQL_VERSION,
      platform := .linux, arch := .arm64,
      url := "https://cdn.mysql.com/archives/mysql-8.0/mysql-8.0.36-linux-glibc2.28-aarch64.tar.xz",
      sha256 := "c05cc22cd0172e348739e2f269107702be24f500e5d820009d19b98ba596da7b",
      archiveType := "tar.xz",
      innerPathHints := ["mysql-8.0.36-linux-glibc2.28-aarch64/bin/mysqldump", "bin/mysqldump"] },
    { version := PINNED_MYSQL_VERSION,
      platform := .darwin, arch := .arm64,
      url := "https://cdn.mysql.com/archives/mysql-8.0/mysql-8.0.36-macos14-arm64.tar.gz",
      sha256 := "c419d50bcbde8ad5e2cb895a2784cca6f1cc30fb26492dbd230abc7bb7bd2377",
      archiveType := "tar.gz",
      innerPathHints := ["mysql-8.0.36-macos14-arm64/bin/mysqldump", "bin/mysqldump"] },
    { version := PINNED_MYSQL_VERSION,
      platform := .darwin, arch := .x64,
      url := "https://cdn.mysql.com/archives/mysql-8.0/mysql-8.0.36-macos14-x86_64.tar.gz",
      sha256 := "99ffdfc3178a4542e4b8ed12582525fb06020c79b8731f6672e55ae5b4357347",
      archiveType := "tar.gz",
      innerPathHints := ["mysql-8.0.36-macos14-x86_64/bin/mysqldump", "bin/mysqldump"] },
    { version := PINNED_MYSQL_VERSION,
      platform := .win32, arch := .x64,
      url := "https://cdn.mysql.com/archives/mysql-8.0/mysql-8.0.36-winx64.zip",
      sha256 := "a1bc2ad567eef672be20b591ad25b14f221e60bde3ae3eb235128d91e4166557",
      archiveType := "zip",
      innerPathHints := ["mysql-8.0.36-winx64/bin/mysqldump.exe", "bin/mysqldump.exe"] } ]

def resolveBinaryDescriptor (platform : Platform) (arch : Arch) :
    Option BinaryDescriptor :=
  BINARY_MAP.find? (fun b => b.platform = platform ∧ b.arch = arch)

/-! ## Binary resolver (`src/binaryManager.ts`)

`ensureBinary` is embedded over an environment giving the outcome of each
external operation it performs, in program order: whether a file exists at
the resolved override path, whether a file already sits at the cache path,
the outcome of the download, of the archive hash, of the extraction
(unzip, or the spawned `tar`), and the result of the recursive search for
the binary inside the extraction directory.  Besides the `Except` result it
returns a trace of the facts the spec speaks about: whether the download
ran, whether extraction ran, whether the private temp directory was created
and whether it was removed, and whether a file sits at the cache path
afterwards (on entry to the no-cache-hit branch there is none).  `fs.move`,
`fs.chmod` and the final `fs.remove(tmpDir)` are modelled as succeeding. -/

structure PlatformInfo where
  platform : Platform
  arch : Arch
  isWindows : Bool

structure ResolverEnv where
  overrideExists : Bool
  cacheHit : Bool
  downloadResult : Except String Unit
  sha256Result : Except String String
  extractResult : Except String Unit
  foundBinary : Option String

structure ResolverTrace where
  downloadAttempted : Bool := false
  extractionRan : Bool := false
  tmpDirCreated : Bool := false
  tmpDirRemoved : Bool := false
  fileAtCachePath : Bool := false
deriving DecidableEq, Repr

def BINARY_NAMES_win32 : String := "mysqldump.exe"

def BINARY_NAMES_default : String := "mysqldump"

def getBinaryCacheDir (homeDir : String) (platform : Platform) (arch : Arch) : String :=
  joinPath [homeDir, "." ++ APP_NAME, "bin", platform.str ++ "-" ++ arch.str]

def ensureBinary (info : PlatformInfo) (env : ResolverEnv) (cwd homeDir : String)
    (customPath : Option String) : Except String String × ResolverTrace :=
  match customPath with
  | some p =>
    let resolved := pathResolve cwd p
    if env.overrideExists then (Except.ok resolved, {})
    else (Except.error ("Binary override not found at " ++ resolved), {})
  | none =>
    match resolveBinaryDescriptor info.platform info.arch with
    | none =>
      (Except.error ("Unsupported platform/arch: " ++ info.platform.str ++ "-"
        ++ info.arch.str ++ ". Please update version map."), {})
    | some descriptor =>
      let cacheDir := getBinaryCacheDir homeDir info.platform info.arch
      let binaryName := if info.isWindows then BINARY_NAMES_win32 else BINARY_NAMES_default
      let targetPath := joinPath [cacheDir, binaryName]
      if env.cacheHit then (Except.ok targetPath, { fileAtCachePath := true })
      else
        let t0 : ResolverTrace := { downloadAttempted := true, tmpDirCreated := true }
        match env.downloadResult with
        | Except.error e => (Except.error e, t0)
        | Except.ok _ =>
          match env.sha256Result with
          | Except.error e => (Except.error e, t0)
          | Except.ok actualSha =>
            if descriptor.sha256 ≠ "" ∧ descriptor.sha256 ≠ "REPLACE_WITH_OFFICIAL_SHA256"
                ∧ actualSha ≠ descriptor.sha256 then
              (Except.error ("Checksum mismatch for mysqldump archive. Expected "
                ++ descriptor.sha256 ++ ", got " ++ actualSha ++ "."), t0)
            else
              let t1 : ResolverTrace := { t0 with extractionRan := true }
              match env.extractResult with
              | Except.error e => (Except.error e, t1)
              | Except.ok _ =>
                match env.foundBinary with
                | none =>
                  (Except.error "mysqldump binary not found in downloaded archive. Check version map or artifact layout.", t1)
                | some _found =>
                  (Except.ok targetPath,
                    { t1 with fileAtCachePath := true, tmpDirRemoved := true })

/-! ## Connection probe (`src/connectionTester.ts`)

The spawned process is embedded as its terminal event: a spawn `error`
event, or an `exit` event with an exit code (`none` models JS `null`, the
signal-kill case) and the stderr data captured until then.  `testConnection`
only ever resolves its promise — embedded as a total function into
`ConnectionTestResult`, never `Except`. -/

inductive ProcOutcome where
  | spawnFailed (message : String)
  | exited (code : Option Int) (stderrData : String)
deriving DecidableEq, Repr

def exitCodeText : Option Int → String
  | some c => toString c
  | none => "null"

def buildProbeArgs (db : DatabaseConfig) : List String :=
  ["--host=" ++ db.host, "--user=" ++ db.username]
    ++ (match db.port with
        | some p => ["--port=" ++ toString p]
        | none => [])
    ++ ["--no-data", db.name]

def testConnection (req : DumpRequest)
    (spawnOutcome : String → List String → ProcOutcome) : ConnectionTestResult :=
  match spawnOutcome req.binaryPath (buildProbeArgs req.db) with
  | .spawnFailed msg => { ok := false, message := some msg, errText := some msg }
  | .exited code stderrData =>
    if code = some 0 then { ok := true, message := none, errText := none }
    else
      let trimmed := strTrim stderrData
      { ok := false,
        message := some (if trimmed = "" then
          "mysqldump exited with code " ++ exitCodeText code
        else trimmed),
        errText := none }

/-! ## Dump executor (`src/dumper.ts`)

The subprocess plus the output/compression streams are embedded as the
terminal event that settles `runDump`'s promise: a spawn `error` event, an
`error` event on the stream piped into the destination file (the captured
stderr so far rides along but the code ignores it on that path), or the
child's `exit` event with code and captured stderr.  `fs.createWriteStream`
puts a (partial) file at `req.outputPath`; on the error paths `cleanup`
runs `fs.remove(outputPath).catch(() => undefined)`, modelled as removing
the file.  The returned `Bool` says whether a file is left at
`req.outputPath`. -/

inductive DumpOutcome where
  | spawnFailed (message : String)
  | streamFailed (message : String) (stderrData : String)
  | exited (code : Option Int) (stderrData : String)
deriving DecidableEq, Repr

def buildDumpArgs (req : DumpRequest) : List String :=
  ["--host=" ++ req.db.host, "--user=" ++ req.db.username]
    ++ (match req.db.port with
        | some p => ["--port=" ++ toString p]
        | none => [])
    ++ req.flags
    ++ req.excludeTables.map (fun t => "--ignore-table=" ++ req.db.name ++ "." ++ t)
    ++ [req.db.name]

def runDump (req : DumpRequest) (spawnOutcome : String → List String → DumpOutcome)
    (statSize elapsedMs : Nat) : Except String DumpResult × Bool :=
  match spawnOutcome req.binaryPath (buildDumpArgs req) with
  | .spawnFailed msg => (Except.error msg, false)
  | .streamFailed msg _stderrData => (Except.error msg, false)
  | .exited code stderrData =>
    if code = some 0 then
      let res : DumpResult :=
        { outputPath := req.outputPath, sizeBytes := statSize,
          durationMs := elapsedMs, gzip := req.gzip }
      (Except.ok res, true)
    else
      let msg :=
        if stderrData = "" then "mysqldump exited with " ++ exitCodeText code
        else stderrData
      (Except.error msg, false)

/-! ## Concrete sample data (used by witnesses and counterexamples) -/

deriving instance DecidableEq for Except

def sampleDb : DatabaseConfig :=
  { id := "db-1", dbType := "mysql", environment := "local", name := "sample-db",
    «alias» := some "sample", host := "localhost", port := some 3306,
    username := "root", passwordRef := "plaintext:pw", selectedFlags := [],
    customFlags := none, gzipDefault := none,
    createdAt := "2024-01-01T00:00:00.000Z", updatedAt := "2024-01-01T00:00:00.000Z" }

def sampleDb2 : DatabaseConfig :=
  { sampleDb with id := "db-2", name := "other-db", «alias» := none }

def sampleReq : DumpRequest :=
  { db := sampleDb, password := "pw", outputPath := "/tmp/out.sql", gzip := false,
    excludeTables := [], flags := [], binaryPath := "/usr/local/bin/mysqldump" }

/-- A dump whose output stream fails (for instance the disk filling up)
while the exporter has already written warnings to stderr. -/
def streamFailureOutcome : String → List String → DumpOutcome :=
  fun _ _ =>
    DumpOutcome.streamFailed "write EACCES: permission denied"
      "mysqldump: Got errno 28 on write"

/-- A server whose URLs 0, 1, 2 each redirect to the next and whose URL 3
answers 200. -/
def threeHopServer : Nat → Response Nat :=
  fun u => if u < 3 then ⟨some 302, some (u + 1)⟩ else ⟨some 200, none⟩

/-- A response counts as a redirect towards `loc` when it has a status in
[300, 400) and a `Location` header equal to `loc`. -/
def isRedirect {U : Type} (res : Response U) (loc : U) : Prop :=
  (∃ sc, res.statusCode = some sc ∧ 300 ≤ sc ∧ sc < 400) ∧ res.location = some loc

/-! ## Helper lemmas -/

theorem strStartsWith_append (pre s : String) : strStartsWith (pre ++ s) pre = true := by
  simp [strStartsWith, String.data_append]

theorem strDrop_append (pre s : String) : strDrop (pre ++ s) pre.length = s := by
  cases pre with
  | mk l =>
    cases s with
    | mk m =>
      unfold strDrop
      rw [String.data_append, String.length_mk, List.drop_left]

theorem plaintext_ref_ne_empty (s : String) : ("plaintext:" ++ s) ≠ "" := by
  intro he
  have hd := congrArg String.data he
  rw [String.data_append] at hd
  have hnil : ("" : String).data = [] := rfl
  rw [hnil] at hd
  exact absurd (List.append_eq_nil.mp hd).1 (by decide)

theorem resolvePassword_plaintext (kl : Option (String → Option String)) (s : String) :
    resolvePassword kl ("plaintext:" ++ s) = some s := by
  simp [resolvePassword, plaintext_ref_ne_empty s, strStartsWith_append, strDrop_append]

theorem binaryMap_sha_nontrivial :
    ∀ d ∈ BINARY_MAP, d.sha256 ≠ "" ∧ d.sha256 ≠ "REPLACE_WITH_OFFICIAL_SHA256" := by
  decide

theorem requestLoop_redirect_step {U : Type} (server : U → Response U) (url loc : U)
    (r : Nat) (hr : r < MAX_REDIRECTS) (h : isRedirect (server url) loc) :
    requestLoop server url r = requestLoop server loc (r + 1) := by
  obtain ⟨⟨sc, hsc, h3, h4⟩, hloc⟩ := h
  conv_lhs => rw [requestLoop.eq_def]
  simp only [hsc, hloc]
  rw [if_pos ⟨h3, h4⟩, if_neg (by omega)]

theorem requestLoop_maxed {U : Type} (server : U → Response U) (url loc : U)
    (r : Nat) (hr : MAX_REDIRECTS ≤ r) (h : isRedirect (server url) loc) :
    requestLoop server url r = Except.error "Too many redirects" := by
  obtain ⟨⟨sc, hsc, h3, h4⟩, hloc⟩ := h
  conv_lhs => rw [requestLoop.eq_def]
  simp only [hsc, hloc]
  rw [if_pos ⟨h3, h4⟩, if_pos hr]

theorem requestLoop_ok200 {U : Type} (server : U → Response U) (url : U) (r : Nat)
    (h200 : (server url).statusCode = some 200) :
    requestLoop server url r = Except.ok url := by
  conv_lhs => rw [requestLoop.eq_def]
  cases hloc : (server url).location with
  | none => simp [h200, hloc]
  | some l => simp [h200, hloc]

theorem requestLoop_follows {U : Type} (server : U → Response U) (urls : Nat → U) :
    ∀ (n j r : Nat), r + n ≤ MAX_REDIRECTS →
      (∀ i, i < n → isRedirect (server (urls (j + i))) (urls (j + i + 1))) →
      (server (urls (j + n))).statusCode = some 200 →
      requestLoop server (urls j) r = Except.ok (urls (j + n)) := by
  intro n
  induction n with
  | zero =>
    intro j r _ _ h200
    exact requestLoop_ok200 server (urls j) r h200
  | succ n ih =>
    intro j r hle hchain h200
    have hlt : r < MAX_REDIRECTS := by
      simp [MAX_REDIRECTS] at hle ⊢
      omega
    have hstep := requestLoop_redirect_step server (urls j) (urls (j + 1)) r hlt
      (hchain 0 (by omega))
    rw [hstep]
    have hrec := ih (j + 1) (r + 1) (by omega)
      (fun i hi => by
        have hx := hchain (i + 1) (by omega)
        rw [show j + 1 + i = j + (i + 1) from by omega]
        exact hx)
      (by rw [show j + 1 + n = j + (n + 1) from by omega]; exact h200)
    rw [hrec, show j + 1 + n = j + (n + 1) from by omega]

/-- Environment for an `ensureBinary` call with an override path present on
disk (the remaining fields are irrelevant on that branch). -/
def overrideEnv : ResolverEnv :=
  { overrideExists := true, cacheHit := false, downloadResult := Except.ok (),
    sha256Result := Except.ok "", extractResult := Except.ok (), foundBinary := none }

/-- Environment for an `ensureBinary` call with no cache hit whose download
succeeds but hashes to a value different from every catalog hash. -/
def badHashEnv : ResolverEnv :=
  { overrideExists := false, cacheHit := false, downloadResult := Except.ok (),
    sha256Result := Except.ok "deadbeef", extractResult := Except.ok (),
    foundBinary := none }

/-- Environment for a fully successful linux-x64 `ensureBinary` resolution:
no cache hit, download succeeds, archive hashes to the catalog hash, the
extraction succeeds and the binary is found inside the extraction dir. -/
def goodResolveEnv : ResolverEnv :=
  { overrideExists := false, cacheHit := false, downloadResult := Except.ok (),
    sha256Result :=
      Except.ok "ffd80e375834dd07e25cc3c7f03ae1950668ec606655c9cb2eafdfb7e37d6026",
    extractResult := Except.ok (),
    foundBinary := some "mysql-8.0.36-linux-glibc2.28-x86_64/bin/mysqldump" }

/-! ## Claim theorems -/

/-- Claim C10: when the keytar backend is unavailable, `savePassword p` returns the
reference `"plaintext:" ++ p`, and `resolvePassword` on any reference of that
shape returns exactly the suffix after `"plaintext:"`; hence in the plaintext
fallback, resolve after save is the identity on the secret. -/
theorem savePassword_resolvePassword_plaintext_roundtrip :
    ∀ (p freshUUID : String) (existingRef : Option String)
      (keytarLookup : Option (String → Option String)),
      (savePassword false freshUUID p existingRef).ref = "plaintext:" ++ p
      ∧ (∀ s : String, resolvePassword keytarLookup ("plaintext:" ++ s) = some s)
      ∧ resolvePassword keytarLookup ((savePassword false freshUUID p existingRef).ref)
          = some p := by
  intro p u er kl
  have hsave : (savePassword false u p er).ref = "plaintext:" ++ p := by
    simp [savePassword]
  refine ⟨hsave, fun s => resolvePassword_plaintext kl s, ?_⟩
  rw [hsave]
  exact resolvePassword_plaintext kl p

/-- Claim C9: the connection probe is a total function into `ConnectionTestResult`
(the promise only ever resolves): zero exit gives `ok := true`; nonzero exit
gives `ok := false` with the trimmed stderr when non-empty, else the generic
"mysqldump exited with code N" text; a spawn failure gives `ok := false`
with the spawn error text. -/
theorem testConnection_total_cases (req : DumpRequest)
    (spawnOutcome : String → List String → ProcOutcome) :
    (∀ sd, spawnOutcome req.binaryPath (buildProbeArgs req.db)
        = ProcOutcome.exited (some 0) sd →
      testConnection req spawnOutcome = { ok := true, message := none, errText := none })
    ∧ (∀ code sd, spawnOutcome req.binaryPath (buildProbeArgs req.db)
        = ProcOutcome.exited code sd → code ≠ some 0 →
      testConnection req spawnOutcome
        = { ok := false,
            message := some (if strTrim sd = "" then
              "mysqldump exited with code " ++ exitCodeText code
            else strTrim sd),
            errText := none })
    ∧ (∀ msg, spawnOutcome req.binaryPath (buildProbeArgs req.db)
        = ProcOutcome.spawnFailed msg →
      testConnection req spawnOutcome
        = { ok := false, message := some msg, errText := some msg }) := by
  refine ⟨?_, ?_, ?_⟩
  · intro sd h
    simp [testConnection, h]
  · intro code sd h hne
    simp [testConnection, h, hne]
  · intro msg h
    simp [testConnection, h]

/-- Witness for claim C9: a probe exiting 1 with padded stderr yields the trimmed
stderr as message, not an exception. -/
theorem testConnection_total_cases_witness :
    testConnection sampleReq (fun _ _ => ProcOutcome.exited (some 1) "  access denied  ")
      = { ok := false, message := some "access denied", errText := none } := by
  have h := (testConnection_total_cases sampleReq
      (fun _ _ => ProcOutcome.exited (some 1) "  access denied  ")).2.1
      (some 1) "  access denied  " rfl (by decide)
  exact h.trans (by decide)

/-- Counterexample to claim C1: on an output-stream error the promise is rejected
with the stream error, not with the captured stderr, even when that stderr
is non-empty — so the claim's "error whose message is the captured stderr
when stderr is non-empty" fails on the output-stream-error case (the partial
file is still deleted). -/
theorem runDump_stream_error_message_cex :
    (runDump sampleReq streamFailureOutcome 0 0).1
        ≠ Except.error "mysqldump: Got errno 28 on write"
      ∧ ("mysqldump: Got errno 28 on write" : String) ≠ ""
      ∧ runDump sampleReq streamFailureOutcome 0 0
          = (Except.error "write EACCES: permission denied", false) := by
  refine ⟨by decide, by decide, by decide⟩

/-- Claim C1 amended: on nonzero exit `runDump` fails with the captured stderr
when non-empty (else the generic "mysqldump exited with N" text); on a spawn
error or an output-stream error it fails with that error's own message; in
all three cases the partial destination file is deleted (modelling the
best-effort `fs.remove` as succeeding), so no file is left at the
destination path. -/
theorem runDump_failure_cleanup (req : DumpRequest)
    (spawnOutcome : String → List String → DumpOutcome) (statSize elapsedMs : Nat) :
    (∀ code sd, spawnOutcome req.binaryPath (buildDumpArgs req)
        = DumpOutcome.exited code sd → code ≠ some 0 →
      runDump req spawnOutcome statSize elapsedMs
        = (Except.error (if sd = "" then "mysqldump exited with " ++ exitCodeText code
            else sd), false))
    ∧ (∀ msg, spawnOutcome req.binaryPath (buildDumpArgs req)
        = DumpOutcome.spawnFailed msg →
      runDump req spawnOutcome statSize elapsedMs = (Except.error msg, false))
    ∧ (∀ msg sd, spawnOutcome req.binaryPath (buildDumpArgs req)
        = DumpOutcome.streamFailed msg sd →
      runDump req spawnOutcome statSize elapsedMs = (Except.error msg, false)) := by
  refine ⟨?_, ?_, ?_⟩
  · intro code sd h hne
    simp [runDump, h, hne]
  · intro msg h
    simp [runDump, h]
  · intro msg sd h
    simp [runDump, h]

/-- Witness for amended claim C1: a dump exiting 2 with stderr captured fails with
that stderr and leaves no file at the destination. -/
theorem runDump_failure_cleanup_witness :
    runDump sampleReq (fun _ _ => DumpOutcome.exited (some 2) "Access denied for user") 0 0
      = (Except.error "Access denied for user", false) := by
  have h := (runDump_failure_cleanup sampleReq
      (fun _ _ => DumpOutcome.exited (some 2) "Access denied for user") 0 0).1
      (some 2) "Access denied for user" rfl (by decide)
  exact h.trans (by decide)

/-- Counterexample to claim C3: a parsed file carrying a newer version (2) is NOT
force-stamped to the current schema version in memory — `loadConfig`
preserves the nonzero on-disk value. -/
theorem loadConfig_newer_version_cex :
    (loadConfig (some { version := some 2, databases := [], defaults := none })).version
      ≠ SCHEMA_VERSION := by
  decide

/-- Claim C3 amended: with no file, `loadConfig` returns the empty-but-valid
structure (current version, empty target list); with a parsed file it
preserves the target list and the defaults, stamps the version to the
current constant exactly when the on-disk value is missing or `0` (JS
falsy), and keeps any nonzero on-disk version as-is. -/
theorem loadConfig_version_amended :
    loadConfig none = { version := SCHEMA_VERSION, databases := [], defaults := none }
    ∧ (∀ raw : RawConfig, (loadConfig (some raw)).databases = raw.databases
        ∧ (loadConfig (some raw)).defaults = raw.defaults)
    ∧ (∀ raw : RawConfig, (raw.version = none ∨ raw.version = some 0) →
        (loadConfig (some raw)).version = SCHEMA_VERSION)
    ∧ (∀ (raw : RawConfig) (v : Nat), raw.version = some v → v ≠ 0 →
        (loadConfig (some raw)).version = v) := by
  refine ⟨rfl, fun raw => ⟨rfl, rfl⟩, ?_, ?_⟩
  · intro raw h
    rcases h with h | h <;> simp [loadConfig, h, SCHEMA_VERSION, DEFAULT_CONFIG]
  · intro raw v h hv
    simp [loadConfig, h, hv]

/-- Witness for amended claim C3: a file with a missing version field is stamped to
the current schema version. -/
theorem loadConfig_version_amended_witness :
    (loadConfig (some { version := none, databases := [], defaults := none })).version
      = SCHEMA_VERSION :=
  loadConfig_version_amended.2.2.1 { version := none, databases := [], defaults := none }
    (Or.inl rfl)

/-- Counterexample to claim C7: when an entry with the same id already exists,
`upsert` replaces it in place and the subsequent `delete` removes it, so the
round trip shrinks the target list instead of restoring the pre-upsert
count. -/
theorem upsert_delete_existing_id_cex :
    ((deleteDatabase (upsertDatabase ⟨1, [sampleDb], none⟩ sampleDb) sampleDb.id).databases).length
      ≠ ([sampleDb] : List DatabaseConfig).length := by
  decide

/-- Claim C7 amended: when no existing entry carries `entry.id`,
`delete(upsert(config, entry), entry.id)` restores the configuration exactly
(hence the pre-upsert target count and membership); with the id already
present the delete removes the updated entry and the count drops by one. -/
theorem upsert_delete_fresh_id (config : ConfigFile) (entry : DatabaseConfig)
    (h : ∀ d ∈ config.databases, d.id ≠ entry.id) :
    deleteDatabase (upsertDatabase config entry) entry.id = config := by
  obtain ⟨ver, dbs, defs⟩ := config
  have hfind : dbs.findIdx? (fun d => d.id = entry.id) = none := by
    rw [List.findIdx?_eq_none_iff]
    intro d hd
    simpa using h d hd
  have hlist : (dbs ++ [entry]).filter (fun d => d.id ≠ entry.id) = dbs := by
    rw [List.filter_append]
    have h1 : dbs.filter (fun d => d.id ≠ entry.id) = dbs := by
      rw [List.filter_eq_self]
      intro a ha
      simpa using h a ha
    rw [h1]
    simp
  simp only [upsertDatabase, hfind, deleteDatabase]
  rw [hlist]

/-- Witness for amended claim C7: inserting a fresh-id entry and deleting it restores
the original configuration. -/
theorem upsert_delete_fresh_id_witness :
    deleteDatabase (upsertDatabase ⟨1, [sampleDb], none⟩ sampleDb2) sampleDb2.id
      = ⟨1, [sampleDb], none⟩ :=
  upsert_delete_fresh_id ⟨1, [sampleDb], none⟩ sampleDb2 (by decide)

/-- Counterexample to claim C5: the planner has no separate name input — the filename
stem is the alias-or-name value itself, so the claimed shape
`<root>/<env>/<alias-or-name>/<name>-<ts>.sql` fails as soon as the target's
name differs from its alias. -/
theorem defaultDumpPath_filename_stem_cex :
    defaultDumpPath "prod" "alias1" false (some "/r") "/tmp" "2024-01-02T03:04:05.678Z"
      ≠ specDumpPath "/r" "prod" "alias1" "db1"
          (timestampString "2024-01-02T03:04:05.678Z") false := by
  decide

/-- Claim C5 amended: for non-empty environment and alias-or-name and a non-empty
root override, the planner returns exactly
`<root>/<environment>/<alias-or-name>/<alias-or-name>-<timestamp>.sql[.gz]`
— the alias-or-name is used both as the directory segment and as the
filename stem — where the timestamp is the ISO time with every `:` and `.`
replaced by `-`; with no override the root is the process-wide temp dump
directory. -/
theorem defaultDumpPath_amended (env aliasOrName : String) (gzip : Bool)
    (root tmpdir nowISO : String) (henv : env ≠ "") (hname : aliasOrName ≠ "")
    (hroot : root ≠ "") :
    defaultDumpPath env aliasOrName gzip (some root) tmpdir nowISO
        = specDumpPath root env aliasOrName aliasOrName (timestampString nowISO) gzip
    ∧ defaultDumpPath env aliasOrName gzip none tmpdir nowISO
        = specDumpPath (getTempDumpRoot tmpdir) env aliasOrName aliasOrName
            (timestampString nowISO) gzip := by
  constructor <;>
    simp [defaultDumpPath, specDumpPath, henv, hname, hroot, resolveDumpPath,
      joinPath, String.intercalate, String.intercalate.go]

/-- Witness for amended claim C5: concrete instance of the amended path shape. -/
theorem defaultDumpPath_amended_witness :
    defaultDumpPath "prod" "alias1" true (some "/r") "/tmp" "2024-01-02T03:04:05.678Z"
      = specDumpPath "/r" "prod" "alias1" "alias1"
          (timestampString "2024-01-02T03:04:05.678Z") true :=
  (defaultDumpPath_amended "prod" "alias1" true "/r" "/tmp" "2024-01-02T03:04:05.678Z"
    (by decide) (by decide) (by decide)).1

/-- Counterexample to claim C4: the override branch returns `path.resolve` of the
supplied path, not the supplied string verbatim — a relative override such
as "mysqldump" comes back absolutized against the working directory. -/
theorem ensureBinary_override_verbatim_cex :
    (ensureBinary ⟨Platform.linux, Arch.x64, false⟩ overrideEnv "/work" "/home/user"
        (some "mysqldump")).1
      = Except.ok "/work/mysqldump"
    ∧ ("/work/mysqldump" : String) ≠ "mysqldump" := by
  refine ⟨rfl, by decide⟩

/-- Claim C4 amended: with an override path supplied, `ensureBinary` performs no
download, checksum verification or extraction and creates no temp directory;
if a file exists at the resolved path it returns `path.resolve` of the
supplied path (the supplied string itself when that is already an absolute
normalized path), else it fails with the binary-override-not-found error. -/
theorem ensureBinary_override (info : PlatformInfo) (env : ResolverEnv)
    (cwd homeDir p : String) :
    (env.overrideExists = true →
      ensureBinary info env cwd homeDir (some p)
        = (Except.ok (pathResolve cwd p),
           { downloadAttempted := false, extractionRan := false,
             tmpDirCreated := false, tmpDirRemoved := false,
             fileAtCachePath := false }))
    ∧ (env.overrideExists = false →
      ensureBinary info env cwd homeDir (some p)
        = (Except.error ("Binary override not found at " ++ pathResolve cwd p),
           { downloadAttempted := false, extractionRan := false,
             tmpDirCreated := false, tmpDirRemoved := false,
             fileAtCachePath := false })) := by
  constructor <;> intro h <;> simp [ensureBinary, h]

/-- Witness for amended claim C4: an absolute override path that exists is returned
as supplied, with a trace showing nothing else ran. -/
theorem ensureBinary_override_witness :
    ensureBinary ⟨Platform.linux, Arch.x64, false⟩ overrideEnv "/work" "/home/user"
        (some "/opt/bin/mysqldump")
      = (Except.ok "/opt/bin/mysqldump",
         { downloadAttempted := false, extractionRan := false,
           tmpDirCreated := false, tmpDirRemoved := false,
           fileAtCachePath := false }) := by
  have h := (ensureBinary_override ⟨Platform.linux, Arch.x64, false⟩ overrideEnv
      "/work" "/home/user" "/opt/bin/mysqldump").1 rfl
  exact h.trans (by decide)

/-- Claim C2: for a platform/arch with a catalog descriptor and no cache hit, a
downloaded archive whose SHA-256 differs from the descriptor's expected hash
makes `ensureBinary` fail with the checksum-mismatch error before any
extraction step runs, and no file exists at the cache path afterwards. -/
theorem ensureBinary_checksum_mismatch (info : PlatformInfo) (env : ResolverEnv)
    (cwd homeDir : String) (d : BinaryDescriptor) (actualSha : String)
    (hd : resolveBinaryDescriptor info.platform info.arch = some d)
    (hc : env.cacheHit = false)
    (hdl : env.downloadResult = Except.ok ())
    (hsha : env.sha256Result = Except.ok actualSha)
    (hne : actualSha ≠ d.sha256) :
    ensureBinary info env cwd homeDir none
      = (Except.error ("Checksum mismatch for mysqldump archive. Expected "
          ++ d.sha256 ++ ", got " ++ actualSha ++ "."),
         { downloadAttempted := true, extractionRan := false, tmpDirCreated := true,
           tmpDirRemoved := false, fileAtCachePath := false })
    ∧ (ensureBinary info env cwd homeDir none).2.extractionRan = false
    ∧ (ensureBinary info env cwd homeDir none).2.fileAtCachePath = false := by
  have hmem : d ∈ BINARY_MAP :=
    List.mem_of_find?_eq_some (by simpa [resolveBinaryDescriptor] using hd)
  obtain ⟨hs1, hs2⟩ := binaryMap_sha_nontrivial d hmem
  have hmain : ensureBinary info env cwd homeDir none
      = (Except.error ("Checksum mismatch for mysqldump archive. Expected "
          ++ d.sha256 ++ ", got " ++ actualSha ++ "."),
         { downloadAttempted := true, extractionRan := false, tmpDirCreated := true,
           tmpDirRemoved := false, fileAtCachePath := false }) := by
    simp [ensureBinary, hd, hc, hdl, hsha, hs1, hs2, hne]
  exact ⟨hmain, by rw [hmain], by rw [hmain]⟩

/-- Witness for claim C2: a linux-x64 resolution downloading an archive that hashes to
"deadbeef" stops before extraction with nothing at the cache path. -/
theorem ensureBinary_checksum_mismatch_witness :
    (ensureBinary ⟨Platform.linux, Arch.x64, false⟩ badHashEnv "/w" "/h" none).2.extractionRan
        = false
    ∧ (ensureBinary ⟨Platform.linux, Arch.x64, false⟩ badHashEnv "/w" "/h" none).2.fileAtCachePath
        = false := by
  have h := ensureBinary_checksum_mismatch ⟨Platform.linux, Arch.x64, false⟩ badHashEnv
    "/w" "/h" (BINARY_MAP.get ⟨0, by decide⟩) "deadbeef" (by decide) rfl rfl rfl (by decide)
  exact ⟨h.2.1, h.2.2⟩

/-- Counterexample to claim C8: on the checksum-mismatch exit of the
download-and-extract branch the private temp directory is created but NOT
removed — cleanup only happens on the success path. -/
theorem ensureBinary_tmpdir_leak_cex :
    (ensureBinary ⟨Platform.linux, Arch.x64, false⟩ badHashEnv "/w" "/h" none).2.tmpDirCreated
        = true
    ∧ (ensureBinary ⟨Platform.linux, Arch.x64, false⟩ badHashEnv "/w" "/h" none).2.tmpDirRemoved
        = false := by
  decide

/-- Claim C8 amended: in the download-and-extract branch (no override, no cache
hit) the temp directory is removed exactly on the successful exit path; on
the download-error, checksum-mismatch, extraction-failure and
executable-not-found exits it is left in place (and the `fs.remove` call is
not error-guarded, so a removal failure would propagate rather than be
swallowed). -/
theorem ensureBinary_tmpdir_removed_iff_success (info : PlatformInfo) (env : ResolverEnv)
    (cwd homeDir : String) (h : env.cacheHit = false) :
    ((ensureBinary info env cwd homeDir none).2.tmpDirRemoved = true
      ↔ ∃ tp, (ensureBinary info env cwd homeDir none).1 = Except.ok tp) := by
  obtain ⟨oe, ch, dl, sh, ex, fb⟩ := env
  replace h : ch = false := h
  subst h
  cases hdesc : resolveBinaryDescriptor info.platform info.arch with
  | none => simp [ensureBinary, hdesc]
  | some d =>
    cases dl with
    | error e => simp [ensureBinary, hdesc]
    | ok u =>
      cases sh with
      | error e => simp [ensureBinary, hdesc]
      | ok sha =>
        by_cases hif : d.sha256 ≠ "" ∧ d.sha256 ≠ "REPLACE_WITH_OFFICIAL_SHA256"
            ∧ sha ≠ d.sha256
        · simp [ensureBinary, hdesc, hif]
        · cases ex with
          | error e => simp [ensureBinary, hdesc, hif]
          | ok u2 =>
            cases fb with
            | none => simp [ensureBinary, hdesc, hif]
            | some f => simp [ensureBinary, hdesc, hif]

/-- Witness for amended claim C8: a fully successful resolution does remove the temp
directory (and indeed returned ok). -/
theorem ensureBinary_tmpdir_removed_iff_success_witness :
    ((ensureBinary ⟨Platform.linux, Arch.x64, false⟩ goodResolveEnv "/w" "/h" none).2.tmpDirRemoved
        = true
      ↔ ∃ tp, (ensureBinary ⟨Platform.linux, Arch.x64, false⟩ goodResolveEnv "/w" "/h" none).1
          = Except.ok tp) :=
  ensureBinary_tmpdir_removed_iff_success ⟨Platform.linux, Arch.x64, false⟩ goodResolveEnv
    "/w" "/h" rfl

/-- Claim C6: the fetcher follows a chain of at most five redirects to the final
target (modelled here by a 200 at the end of the chain), and a chain of six
redirect responses is rejected with the redirect-loop error. -/
theorem downloadToFile_redirect_bound {U : Type} (server : U → Response U)
    (urls : Nat → U) :
    ((∀ i, i < 6 → isRedirect (server (urls i)) (urls (i + 1))) →
      downloadToFile server (urls 0) = Except.error "Too many redirects")
    ∧ (∀ n, n ≤ 5 → (∀ i, i < n → isRedirect (server (urls i)) (urls (i + 1))) →
        (server (urls n)).statusCode = some 200 →
        downloadToFile server (urls 0) = Except.ok (urls n)) := by
  constructor
  · intro h
    unfold downloadToFile
    have s0 := requestLoop_redirect_step server (urls 0) (urls 1) 0 (by decide)
      (h 0 (by omega))
    have s1 := requestLoop_redirect_step server (urls 1) (urls 2) 1 (by decide)
      (h 1 (by omega))
    have s2 := requestLoop_redirect_step server (urls 2) (urls 3) 2 (by decide)
      (h 2 (by omega))
    have s3 := requestLoop_redirect_step server (urls 3) (urls 4) 3 (by decide)
      (h 3 (by omega))
    have s4 := requestLoop_redirect_step server (urls 4) (urls 5) 4 (by decide)
      (h 4 (by omega))
    have s5 := requestLoop_maxed server (urls 5) (urls 6) 5 (by decide) (h 5 (by omega))
    rw [s0, s1, s2, s3, s4, s5]
  · intro n hn hchain h200
    unfold downloadToFile
    have hrec := requestLoop_follows server urls n 0 0
      (by simpa [MAX_REDIRECTS] using hn)
      (fun i hi => by
        rw [show (0 : Nat) + i = i from by omega]
        exact hchain i hi)
      (by rw [show (0 : Nat) + n = n from by omega]; exact h200)
    rw [hrec, show (0 : Nat) + n = n from by omega]

/-- Witness for claim C6: three chained redirects are followed to the final URL. -/
theorem downloadToFile_redirect_bound_witness :
    downloadToFile threeHopServer 0 = Except.ok 3 := by
  refine (downloadToFile_redirect_bound threeHopServer (fun i => i)).2 3 (by omega) ?_ rfl
  intro i hi
  interval_cases i <;> exact ⟨⟨302, rfl, by omega⟩, rfl⟩

end DbDumper
